import Mathlib

/-!
Shallow embedding of the Velero client-factory fragment:
* `pkg/client` factory (`NewFactory`, `BindFlags`, `ClientConfig`, `Client`,
  `KubeClient`, `DynamicClient`, the three setters, `Namespace`) from the
  factory source file;
* `pkg/install` (`Install`);
* the feature-flag set and the persisted-config helpers, whose sources are
  outside the provided tree and are modelled from the spec.

Go-specific conventions carried over:
* `os.Getenv` returns the empty string for an unset variable, so the
  environment value is a plain `String` here.
* Go's `float32` field `clientQPS` is modelled as `Rat`: the fragment only
  stores and forwards the value, never does arithmetic on it.
* Functions of external libraries (`Config` from the repo's config helpers,
  `clientset.NewForConfig`, `kubernetes.NewForConfig`, `dynamic.NewForConfig`,
  the dynamic client's `Create`) are oracle parameters: the theorems quantify
  over their outcomes.
* `errors.WithStack` is the `GoError.withStack` constructor; `errors.Wrapf`
  produces the wrapped message text followed by a colon and the cause.
-/

namespace Velero

/-- Modelled from the spec: the feature-flag set (`pkg/features`) is not in
the provided tree, only its test is. A set of enabled feature names with
membership test, insertion, and listing in insertion order, no duplicates. -/
structure FeatureFlagSet where
  entries : List String
deriving DecidableEq, Repr

/-- Modelled from the spec: insertion keeps insertion order and no duplicates. -/
def FeatureFlagSet.Enable (s : FeatureFlagSet) (name : String) : FeatureFlagSet :=
  if name ∈ s.entries then s else ⟨s.entries ++ [name]⟩

/-- Modelled from the spec: membership test. -/
def FeatureFlagSet.Enabled (s : FeatureFlagSet) (name : String) : Bool :=
  name ∈ s.entries

/-- Modelled from the spec: listing in insertion order. -/
def FeatureFlagSet.All (s : FeatureFlagSet) : List String :=
  s.entries

/-- Modelled from the spec: construction from an initial name sequence. -/
def NewFeatureFlagSet (names : List String) : FeatureFlagSet :=
  names.foldl FeatureFlagSet.Enable ⟨[]⟩

/-- Modelled from the spec: the persisted user config file (the repo's
`VeleroConfig`/`LoadConfig` helpers are not in the provided tree) exposes a
namespace string and an ordered feature-name sequence. The Go zero value of
the type (a nil map) yields the empty namespace and the empty feature list. -/
structure VeleroConfig where
  Namespace : String
  Features : List String
deriving DecidableEq, Repr

/-- The Go zero value of `VeleroConfig`: `Namespace()` and `Features()` on it
return the empty string and the empty list. -/
def VeleroConfig.zero : VeleroConfig :=
  ⟨"", []⟩

/-- Modelled from the spec: `v1.DefaultNamespace` (the hard-coded default
namespace constant, defined outside the provided tree). -/
def DefaultNamespace : String := "velero"

/-- The set of flag definitions a `pflag.FlagSet` holds after registration:
flag name paired with its default value, in registration order. -/
structure FlagSet where
  defs : List (String × String)
deriving DecidableEq, Repr

/-- Go errors as the fragment builds them: a base message, or
`errors.WithStack` around a cause (which adds a stack trace and keeps the
message and cause intact). -/
inductive GoError where
  | msg (s : String)
  | withStack (e : GoError)
deriving DecidableEq, Repr

/-- The `factory` struct of the factory source file. The Go field `namespace`
is a Lean keyword, hence the guillemets. `flags` holds the registered flag
definitions. -/
structure Factory where
  flags : FlagSet
  features : FeatureFlagSet
  kubeconfig : String
  kubecontext : String
  baseName : String
  «namespace» : String
  clientQPS : Rat
  clientBurst : Int
deriving DecidableEq, Repr

/-- The warning `NewFactory` prints to stderr when `LoadConfig` fails
(line 88 of the factory source). -/
def configWarning (err : String) : String :=
  "WARNING: error retrieving namespace from config file: " ++ err

/-- `NewFactory` (factory source lines 74-109). Inputs: the base name, the
value of `os.Getenv "VELERO_NAMESPACE"` (empty when unset), and the result
of `LoadConfig()`. Output: the factory and the list of warnings printed to
stderr.

Two details of the Go source are carried over exactly:
* `var config VeleroConfig` declares an outer variable that stays at its zero
  value, because `if config, err := LoadConfig(); err == nil` declares fresh
  variables shadowing it; line 104 therefore reads the zero-value config.
* `cmdFeatures` is still empty at line 104, since the caller parses flags
  only after `NewFactory` returns; line 104 copies the empty slice. -/
def NewFactory (baseName : String) (veleroNamespaceEnv : String)
    (loadConfig : Except String VeleroConfig) : Factory × List String :=
  let ns0 := veleroNamespaceEnv
  let config := VeleroConfig.zero
  let step :=
    match loadConfig with
    | .ok config' =>
        (if config'.Namespace ≠ "" then config'.Namespace else ns0,
         ([] : List String))
    | .error err => (ns0, [configWarning err])
  let ns1 := step.1
  let ns2 := if ns1 = "" then DefaultNamespace else ns1
  let cmdFeatures : List String := []
  let allFeatures := config.Features ++ cmdFeatures
  ({ flags := ⟨[("kubeconfig", ""), ("namespace", ns2),
               ("kubecontext", ""), ("features", "")]⟩,
     features := NewFeatureFlagSet allFeatures,
     kubeconfig := "",
     kubecontext := "",
     baseName := baseName,
     «namespace» := ns2,
     clientQPS := 0,
     clientBurst := 0 }, step.2)

/-- The values the caller's later flag parsing supplies, in registration
order. `featuresFlag` collects the comma-split `--features` values; pflag
appends them to the local `cmdFeatures` slice of `NewFactory`, which was
already copied into the feature set, so they never reach the factory. -/
structure ParsedFlags where
  kubeconfigFlag : Option String
  namespaceFlag : Option String
  kubecontextFlag : Option String
  featuresFlag : List String
deriving DecidableEq, Repr

/-- The effect on the factory of the caller parsing the flags bound by
`BindFlags`: `StringVar`/`StringVarP` wrote the parsed values into the bound
factory fields; the `--features` values land only in the discarded local
`cmdFeatures` slice. -/
def applyFlags (f : Factory) (p : ParsedFlags) : Factory :=
  { f with
    kubeconfig := p.kubeconfigFlag.getD f.kubeconfig,
    «namespace» := p.namespaceFlag.getD f.«namespace»,
    kubecontext := p.kubecontextFlag.getD f.kubecontext }

/-- `BindFlags` (factory source lines 111-113): adds the factory's flag
definitions to the caller's flag set. -/
def BindFlags (f : Factory) (flags : FlagSet) : FlagSet :=
  ⟨flags.defs ++ f.flags.defs⟩

/-- `Namespace` (factory source lines 169-171). -/
def Factory.Namespace (f : Factory) : String :=
  f.«namespace»

/-- `SetBasename` (factory source lines 157-159). -/
def SetBasename (f : Factory) (name : String) : Factory :=
  { f with baseName := name }

/-- `SetClientQPS` (factory source lines 161-163). -/
def SetClientQPS (f : Factory) (qps : Rat) : Factory :=
  { f with clientQPS := qps }

/-- `SetClientBurst` (factory source lines 165-167). -/
def SetClientBurst (f : Factory) (burst : Int) : Factory :=
  { f with clientBurst := burst }

/-- `ClientConfig` (factory source lines 115-117): calls the external
`Config` helper on the factory's kubeconfig, kubecontext, base name, QPS and
burst. `Config` lives outside the provided tree and is an oracle parameter;
`β` stands for `rest.Config`. -/
def ClientConfig {β : Type} (f : Factory)
    (Config : String → String → String → Rat → Int → Except GoError β) :
    Except GoError β :=
  Config f.kubeconfig f.kubecontext f.baseName f.clientQPS f.clientBurst

/-- `Client` (factory source lines 119-130): on a `ClientConfig` error the
error is returned as is; on a `clientset.NewForConfig` error the error is
returned wrapped by `errors.WithStack`; otherwise the client handle is
returned. `NewForConfig` is an oracle parameter; `γ` stands for
`clientset.Interface`. -/
def Client {β γ : Type} (f : Factory)
    (Config : String → String → String → Rat → Int → Except GoError β)
    (NewForConfig : β → Except GoError γ) : Except GoError γ :=
  match ClientConfig f Config with
  | .error err => .error err
  | .ok clientConfig =>
      match NewForConfig clientConfig with
      | .error err => .error (GoError.withStack err)
      | .ok veleroClient => .ok veleroClient

/-- `KubeClient` (factory source lines 132-143): same shape as `Client`,
with `kubernetes.NewForConfig`. -/
def KubeClient {β γ : Type} (f : Factory)
    (Config : String → String → String → Rat → Int → Except GoError β)
    (NewForConfig : β → Except GoError γ) : Except GoError γ :=
  match ClientConfig f Config with
  | .error err => .error err
  | .ok clientConfig =>
      match NewForConfig clientConfig with
      | .error err => .error (GoError.withStack err)
      | .ok kubeClient => .ok kubeClient

/-- `DynamicClient` (factory source lines 145-155): same shape as `Client`,
with `dynamic.NewForConfig`. -/
def DynamicClient {β γ : Type} (f : Factory)
    (Config : String → String → String → Rat → Int → Except GoError β)
    (NewForConfig : β → Except GoError γ) : Except GoError γ :=
  match ClientConfig f Config with
  | .error err => .error err
  | .ok clientConfig =>
      match NewForConfig clientConfig with
      | .error err => .error (GoError.withStack err)
      | .ok dynamicClient => .ok dynamicClient

/-! The installer (`pkg/install/install.go`). -/

/-- `schema.GroupResource` of the external apimachinery library. -/
structure GroupResource where
  Group : String
  Resource : String
deriving DecidableEq, Repr

/-- `schema.GroupVersionResource` of the external apimachinery library. -/
structure GroupVersionResource where
  Group : String
  Version : String
  Resource : String
deriving DecidableEq, Repr

/-- `schema.ParseGroupResource` of the external apimachinery library: splits
the string at the first dot into resource (before) and group (after); with
no dot the whole string is the resource. -/
def ParseGroupResource (gr : String) : GroupResource :=
  let cs := gr.toList
  match cs.findIdx? (fun c => c = '.') with
  | some i => ⟨(cs.drop (i + 1)).asString, (cs.take i).asString⟩
  | none => ⟨"", gr⟩

/-- `GroupResource.WithVersion` of the external apimachinery library. -/
def GroupResource.WithVersion (gr : GroupResource) (v : String) :
    GroupVersionResource :=
  ⟨gr.Group, v, gr.Resource⟩

/-- The fields of an unstructured resource descriptor that `Install` reads:
`GetKind()`, `GetName()`, and `GetResourceVersion()` (the
`metadata.resourceVersion` string). -/
structure Unstructured where
  kind : String
  name : String
  resourceVersion : String
deriving DecidableEq, Repr

/-- The group/version/resource coordinates `Install` computes for a
descriptor (install source line 38):
`schema.ParseGroupResource(r.GetResourceVersion()).WithVersion("")`. -/
def installGVR (r : Unstructured) : GroupVersionResource :=
  (ParseGroupResource r.resourceVersion).WithVersion ""

/-- An operation `Install` issues on the dynamic client. The source only
ever issues creates; `delete` is in the vocabulary so the trace can state
that no deletion or rollback happens. -/
inductive ClientOp where
  | create (gvr : GroupVersionResource) (r : Unstructured)
  | delete (gvr : GroupVersionResource) (name : String)
deriving DecidableEq, Repr

/-- The message of the error `Install` returns on a creation failure
(install source line 41): `errors.Wrapf(err, "Error creating resource %s/%s",
r.GetKind(), r.GetName())`, whose message is the format text followed by a
colon and the cause. -/
def wrapCreateError (err : String) (kind name : String) : String :=
  "Error creating resource " ++ kind ++ "/" ++ name ++ ": " ++ err

/-- `Install` (install source lines 34-45). The dynamic client's `Create` is
the oracle `create`; the result is the returned error (`none` for the Go
`nil`) together with the trace of client operations issued, in order. The
loop stops at the first creation error and wraps it with the resource's kind
and name; no operation other than the creates appears in the trace. -/
def Install (create : GroupVersionResource → Unstructured → Except String Unit) :
    List Unstructured → Option String × List ClientOp
  | [] => (none, [])
  | r :: rest =>
      let gvr := installGVR r
      match create gvr r with
      | .error err =>
          (some (wrapCreateError err r.kind r.name), [ClientOp.create gvr r])
      | .ok _ =>
          let tail := Install create rest
          (tail.1, ClientOp.create gvr r :: tail.2)

end Velero

namespace Velero

/-! Theorems. -/

/-- C1: the claim says the factory's feature set is the union of config-file
and command-line features (config-file order first, then new command-line
entries). On the code it is not: `NewFactory` reads the features off the
outer zero-value `config` variable (the `if`-initializer shadows it) and off
the still-empty `cmdFeatures` slice, so with config-file features
`["EnableCSI"]` and command line `--features EnableAPIGroupVersions` the
feature set is empty instead of the claimed
`["EnableCSI", "EnableAPIGroupVersions"]` — contradicting the source's own
comment that the two lists are to be combined. -/
theorem C1_feature_union_fails :
    (applyFlags (NewFactory "velero" "" (Except.ok ⟨"", ["EnableCSI"]⟩)).1
        ⟨none, none, none, ["EnableAPIGroupVersions"]⟩).features.All = []
    ∧ (applyFlags (NewFactory "velero" "" (Except.ok ⟨"", ["EnableCSI"]⟩)).1
        ⟨none, none, none, ["EnableAPIGroupVersions"]⟩).features.All
      ≠ ["EnableCSI", "EnableAPIGroupVersions"] := by
  constructor <;> decide

/-- C2 counterexample: the claim says that with `VELERO_NAMESPACE=foo` and a
config file carrying namespace `bar` (no flag), the environment variable
wins and the namespace is `"foo"`. On the code the config file wins: the
namespace is `"bar"`. -/
theorem C2_env_beats_config_fails :
    (NewFactory "velero" "foo" (Except.ok ⟨"bar", []⟩)).1.Namespace = "bar"
    ∧ (NewFactory "velero" "foo" (Except.ok ⟨"bar", []⟩)).1.Namespace ≠ "foo" := by
  constructor <;> decide

/-- C2 amended: namespace resolution follows the precedence
flag > config file > environment variable > default `"velero"`: a parsed
`--namespace`/`-n` value is used verbatim; otherwise a non-empty config-file
namespace; otherwise a non-empty `VELERO_NAMESPACE`; otherwise the
default. -/
theorem C2_namespace_precedence_amended (baseName env : String)
    (loadConfig : Except String VeleroConfig) (p : ParsedFlags) :
    (applyFlags (NewFactory baseName env loadConfig).1 p).Namespace =
      p.namespaceFlag.getD
        (let cfgNs :=
          match loadConfig with
          | .ok c => c.Namespace
          | .error _ => ""
        if cfgNs ≠ "" then cfgNs
        else if env ≠ "" then env
        else DefaultNamespace) := by
  obtain ⟨k, n, kc, fe⟩ := p
  cases loadConfig <;> cases n <;>
    simp only [applyFlags, NewFactory, Factory.Namespace, Option.getD] <;>
    split_ifs <;> simp_all

end Velero

namespace Velero

/-- C3: the claim says the group/version/resource coordinates used for the
`Create` call are derived from the descriptor's kind. On the code they are
derived from the descriptor's `metadata.resourceVersion` string instead:
changing the kind leaves the coordinates unchanged, changing the resource
version changes them. For kind `CustomResourceDefinition`, name
`backups.velero.io`, resource version `"123"`, the code uses the coordinates
`{group: "", version: "", resource: "123"}`. -/
theorem C3_gvr_ignores_kind :
    installGVR ⟨"CustomResourceDefinition", "backups.velero.io", "123"⟩
      = ⟨"", "", "123"⟩
    ∧ installGVR ⟨"BackupStorageLocation", "default", "123"⟩
      = installGVR ⟨"CustomResourceDefinition", "backups.velero.io", "123"⟩
    ∧ installGVR ⟨"CustomResourceDefinition", "backups.velero.io", "456"⟩
      ≠ installGVR ⟨"CustomResourceDefinition", "backups.velero.io", "123"⟩ := by
  refine ⟨by decide, by decide, by decide⟩

/-- C4: when every creation before a resource `r` succeeds and the creation
of `r` fails with `err`, `Install` returns the error text wrapping `err`
with the kind and name of `r`, and the client sees exactly the create calls
for the resources up to and including `r`, in order: nothing after `r` is
attempted and nothing is deleted or rolled back. -/
theorem C4_install_stops_at_first_error
    (create : GroupVersionResource → Unstructured → Except String Unit)
    (pre : List Unstructured) (r : Unstructured) (rest : List Unstructured)
    (err : String)
    (hok : ∀ x ∈ pre, create (installGVR x) x = Except.ok ())
    (hfail : create (installGVR r) r = Except.error err) :
    Install create (pre ++ r :: rest)
      = (some (wrapCreateError err r.kind r.name),
         (pre ++ [r]).map (fun x => ClientOp.create (installGVR x) x)) := by
  induction pre with
  | nil => simp [Install, hfail]
  | cons a tl ih =>
      have ha := hok a (by simp)
      have htl : ∀ x ∈ tl, create (installGVR x) x = Except.ok () := by
        intro y hy
        exact hok y (by simp [hy])
      simp [Install, ha, ih htl]

/-- C4 witness: three concrete resources, the second creation failing. -/
theorem C4_install_stops_witness :
    Install
        (fun _ r => if r.name = "two" then Except.error "boom" else Except.ok ())
        [⟨"Deployment", "one", "10"⟩, ⟨"Secret", "two", "20"⟩,
         ⟨"ConfigMap", "three", "30"⟩]
      = (some "Error creating resource Secret/two: boom",
         [ClientOp.create (installGVR ⟨"Deployment", "one", "10"⟩)
            ⟨"Deployment", "one", "10"⟩,
          ClientOp.create (installGVR ⟨"Secret", "two", "20"⟩)
            ⟨"Secret", "two", "20"⟩]) := by
  have h := C4_install_stops_at_first_error
      (fun _ r => if r.name = "two" then Except.error "boom" else Except.ok ())
      [⟨"Deployment", "one", "10"⟩] ⟨"Secret", "two", "20"⟩
      [⟨"ConfigMap", "three", "30"⟩] "boom"
      (by intro x hx; simp only [List.mem_singleton] at hx; subst hx; rfl)
      (by rfl)
  simpa [wrapCreateError] using h

/-- C5: when `LoadConfig` fails, `NewFactory` returns a factory all the same
(its Lean type has no error outcome, as the Go signature returns only a
`Factory`), prints exactly the stderr warning about the config file, and the
namespace falls through to the environment value, or to the default when the
environment variable is unset. -/
theorem C5_config_failure_nonfatal (baseName env err : String) :
    (NewFactory baseName env (Except.error err)).1.Namespace
      = (if env = "" then DefaultNamespace else env)
    ∧ (NewFactory baseName env (Except.error err)).2 = [configWarning err] := by
  constructor
  · simp [NewFactory, Factory.Namespace]
  · rfl

end Velero

namespace Velero

/-- C6: for each of `Client`, `KubeClient`, `DynamicClient`: a `ClientConfig`
error is returned unchanged and no client is returned; a constructor error is
returned wrapped by `errors.WithStack`; otherwise the constructed client
handle is returned with no error. No error is swallowed. -/
theorem C6_client_error_propagation {β γ : Type} (f : Factory)
    (Config : String → String → String → Rat → Int → Except GoError β)
    (NewForConfig : β → Except GoError γ) :
    (∀ err, ClientConfig f Config = .error err →
      Client f Config NewForConfig = .error err
      ∧ KubeClient f Config NewForConfig = .error err
      ∧ DynamicClient f Config NewForConfig = .error err)
    ∧ (∀ cfg err, ClientConfig f Config = .ok cfg →
        NewForConfig cfg = .error err →
        Client f Config NewForConfig = .error (GoError.withStack err)
        ∧ KubeClient f Config NewForConfig = .error (GoError.withStack err)
        ∧ DynamicClient f Config NewForConfig = .error (GoError.withStack err))
    ∧ (∀ cfg cl, ClientConfig f Config = .ok cfg →
        NewForConfig cfg = .ok cl →
        Client f Config NewForConfig = .ok cl
        ∧ KubeClient f Config NewForConfig = .ok cl
        ∧ DynamicClient f Config NewForConfig = .ok cl) := by
  refine ⟨fun err h => ?_, fun cfg err h h2 => ?_, fun cfg cl h h2 => ?_⟩ <;>
    refine ⟨?_, ?_, ?_⟩ <;>
    simp [Client, KubeClient, DynamicClient, h] <;>
    simp [h2]

/-- C6 witness: a concrete factory with concrete outcomes for the connection
configuration and the client constructor, one conjunct per case of the
claim. -/
theorem C6_client_error_propagation_witness :
    Client (⟨⟨[]⟩, ⟨[]⟩, "", "", "velero", "velero", 0, 0⟩ : Factory)
        (fun _ _ _ _ _ => Except.error (GoError.msg "no kubeconfig"))
        (fun _ : Unit => (Except.ok "handle" : Except GoError String))
      = Except.error (GoError.msg "no kubeconfig")
    ∧ KubeClient (⟨⟨[]⟩, ⟨[]⟩, "", "", "velero", "velero", 0, 0⟩ : Factory)
        (fun _ _ _ _ _ => Except.ok ())
        (fun _ : Unit => (Except.error (GoError.msg "boom") : Except GoError String))
      = Except.error (GoError.withStack (GoError.msg "boom"))
    ∧ DynamicClient (⟨⟨[]⟩, ⟨[]⟩, "", "", "velero", "velero", 0, 0⟩ : Factory)
        (fun _ _ _ _ _ => Except.ok ())
        (fun _ : Unit => (Except.ok "handle" : Except GoError String))
      = Except.ok "handle" :=
  ⟨((C6_client_error_propagation
        (⟨⟨[]⟩, ⟨[]⟩, "", "", "velero", "velero", 0, 0⟩ : Factory)
        (fun _ _ _ _ _ => Except.error (GoError.msg "no kubeconfig"))
        (fun _ : Unit => (Except.ok "handle" : Except GoError String))).1
      (GoError.msg "no kubeconfig") rfl).1,
   ((C6_client_error_propagation
        (⟨⟨[]⟩, ⟨[]⟩, "", "", "velero", "velero", 0, 0⟩ : Factory)
        (fun _ _ _ _ _ => Except.ok ())
        (fun _ : Unit =>
          (Except.error (GoError.msg "boom") : Except GoError String))).2.1
      () (GoError.msg "boom") rfl rfl).2.1,
   ((C6_client_error_propagation
        (⟨⟨[]⟩, ⟨[]⟩, "", "", "velero", "velero", 0, 0⟩ : Factory)
        (fun _ _ _ _ _ => Except.ok ())
        (fun _ : Unit => (Except.ok "handle" : Except GoError String))).2.2
      () "handle" rfl rfl).2.2⟩

/-- C7: with `VELERO_NAMESPACE=foo` and no config file (whether `LoadConfig`
reports an error or yields the zero-value config), `Namespace()` returns
`"foo"`. -/
theorem C7_env_namespace (baseName err : String) :
    (NewFactory baseName "foo" (Except.error err)).1.Namespace = "foo"
    ∧ (NewFactory baseName "foo" (Except.ok VeleroConfig.zero)).1.Namespace
      = "foo" := by
  exact ⟨rfl, rfl⟩

/-- C8: with no `VELERO_NAMESPACE` and no config file (either `LoadConfig`
outcome), parsing `-n bar` after `BindFlags` makes `Namespace()` return
`"bar"`; with no flag parsed it returns the default `"velero"`. -/
theorem C8_flag_namespace (baseName err : String) :
    (applyFlags (NewFactory baseName "" (Except.error err)).1
        ⟨none, some "bar", none, []⟩).Namespace = "bar"
    ∧ (NewFactory baseName "" (Except.error err)).1.Namespace = "velero"
    ∧ (applyFlags (NewFactory baseName "" (Except.ok VeleroConfig.zero)).1
        ⟨none, some "bar", none, []⟩).Namespace = "bar"
    ∧ (NewFactory baseName "" (Except.ok VeleroConfig.zero)).1.Namespace
      = "velero" := by
  exact ⟨rfl, rfl, rfl, rfl⟩

/-- C9: each setter updates exactly its own field — all the other factory
fields (flags, features, kubeconfig, kubecontext, and the other two of base
name, QPS and burst, plus the namespace) are unchanged — and the connection
configuration built afterwards uses the new value. In this pure embedding a
client constructed before a setter call is a value computed from the old
field values, so the setters cannot affect it. -/
theorem C9_setters_frame (f : Factory) (name : String) (qps : Rat)
    (burst : Int) (β : Type)
    (Config : String → String → String → Rat → Int → Except GoError β) :
    ((SetBasename f name).baseName = name
      ∧ (SetBasename f name).flags = f.flags
      ∧ (SetBasename f name).features = f.features
      ∧ (SetBasename f name).kubeconfig = f.kubeconfig
      ∧ (SetBasename f name).kubecontext = f.kubecontext
      ∧ (SetBasename f name).«namespace» = f.«namespace»
      ∧ (SetBasename f name).clientQPS = f.clientQPS
      ∧ (SetBasename f name).clientBurst = f.clientBurst)
    ∧ ((SetClientQPS f qps).clientQPS = qps
      ∧ (SetClientQPS f qps).flags = f.flags
      ∧ (SetClientQPS f qps).features = f.features
      ∧ (SetClientQPS f qps).kubeconfig = f.kubeconfig
      ∧ (SetClientQPS f qps).kubecontext = f.kubecontext
      ∧ (SetClientQPS f qps).«namespace» = f.«namespace»
      ∧ (SetClientQPS f qps).baseName = f.baseName
      ∧ (SetClientQPS f qps).clientBurst = f.clientBurst)
    ∧ ((SetClientBurst f burst).clientBurst = burst
      ∧ (SetClientBurst f burst).flags = f.flags
      ∧ (SetClientBurst f burst).features = f.features
      ∧ (SetClientBurst f burst).kubeconfig = f.kubeconfig
      ∧ (SetClientBurst f burst).kubecontext = f.kubecontext
      ∧ (SetClientBurst f burst).«namespace» = f.«namespace»
      ∧ (SetClientBurst f burst).baseName = f.baseName
      ∧ (SetClientBurst f burst).clientQPS = f.clientQPS)
    ∧ ClientConfig (SetBasename f name) Config
      = Config f.kubeconfig f.kubecontext name f.clientQPS f.clientBurst
    ∧ ClientConfig (SetClientQPS f qps) Config
      = Config f.kubeconfig f.kubecontext f.baseName qps f.clientBurst
    ∧ ClientConfig (SetClientBurst f burst) Config
      = Config f.kubeconfig f.kubecontext f.baseName f.clientQPS burst := by
  exact ⟨⟨rfl, rfl, rfl, rfl, rfl, rfl, rfl, rfl⟩,
    ⟨rfl, rfl, rfl, rfl, rfl, rfl, rfl, rfl⟩,
    ⟨rfl, rfl, rfl, rfl, rfl, rfl, rfl, rfl⟩, rfl, rfl, rfl⟩

/-- C10: on the empty resource list `Install` issues no client operation and
returns the Go `nil` error. -/
theorem C10_install_empty
    (create : GroupVersionResource → Unstructured → Except String Unit) :
    Install create [] = (none, []) :=
  rfl

end Velero
